import Mathlib

/-
Shallow embedding of the document-editing engine in
src/pdf-editor/src-tauri/src/main.rs (a Tauri shell over the lopdf
crate).  File I/O is abstracted away: a `Document` value stands for the
parsed contents of a file, `Document::load` on a path is modelled by
passing the corresponding `Document` value, and a successful save is
modelled by returning the document that would be written.  lopdf's
machine integers fit comfortably in `Int`/`Nat` here (i64 → f64 casts
in the source are exact for the integral magnitudes involved), so no
modular arithmetic is needed.
-/

/-- lopdf ObjectId: (object number, generation number). -/
structure ObjectId where
  num : Nat
  gen : Nat
deriving DecidableEq, Repr

/-- lopdf Object: the tagged PDF object values.  Real values (f32 in
lopdf) are carried as rationals; no claim depends on float rounding and
the only numeric accessor used by the source, as_i64, rejects them. -/
inductive PdfObject where
  | null
  | boolean (b : Bool)
  | integer (i : Int)
  | real (r : ℚ)
  | string (s : String)
  | name (s : String)
  | array (xs : List PdfObject)
  | dictionary (entries : List (String × PdfObject))
  | stream (dict : List (String × PdfObject)) (content : List Nat)
  | reference (id : ObjectId)

/-- lopdf Dictionary::get — first entry whose key matches. -/
def dictGet (d : List (String × PdfObject)) (k : String) : Option PdfObject :=
  match d with
  | [] => none
  | (k', v) :: rest => if k' = k then some v else dictGet rest k

/-- lopdf Dictionary::set — replace the existing entry for the key, or
append a new one. -/
def dictSet (d : List (String × PdfObject)) (k : String) (v : PdfObject) :
    List (String × PdfObject) :=
  match d with
  | [] => [(k, v)]
  | (k', v') :: rest => if k' = k then (k, v) :: rest else (k', v') :: dictSet rest k v

/-- BTreeMap<usize, i32>::get for the rotations argument of save_pdf;
a map holds at most one entry per key, modelled by first-match lookup. -/
def lookupAssoc (m : List (Nat × Int)) (k : Nat) : Option Int :=
  match m with
  | [] => none
  | (k', v) :: rest => if k' = k then some v else lookupAssoc rest k

/-- BTreeMap<ObjectId, Object>::insert — replace or append. -/
def objInsert (objs : List (ObjectId × PdfObject)) (id : ObjectId) (o : PdfObject) :
    List (ObjectId × PdfObject) :=
  match objs with
  | [] => [(id, o)]
  | (id', o') :: rest => if id' = id then (id, o) :: rest else (id', o') :: objInsert rest id o

/-- BTreeMap<ObjectId, Object>::get. -/
def lookupObj (objs : List (ObjectId × PdfObject)) (id : ObjectId) : Option PdfObject :=
  match objs with
  | [] => none
  | (id', o) :: rest => if id' = id then some o else lookupObj rest id

/-- lopdf Document (the fields main.rs touches): version, the object
store, the trailer dictionary, and max_id used by new_object_id.  After
Document::load, max_id is the highest object number in the store. -/
structure Document where
  version : String
  objects : List (ObjectId × PdfObject)
  trailer : List (String × PdfObject)
  max_id : Nat

/-- lopdf Document::get_object — direct lookup by id (no reference
following); Err is modelled as none. -/
def Document.getObject (d : Document) (id : ObjectId) : Option PdfObject :=
  lookupObj d.objects id

/-- The new_object_id / objects.insert pair used by main.rs lines
126-127 and 155-156: allocate (max_id + 1, 0) and insert. -/
def Document.addObject (d : Document) (o : PdfObject) : Document :=
  { d with
    max_id := d.max_id + 1
    objects := objInsert d.objects ⟨d.max_id + 1, 0⟩ o }

/-- lopdf Object::as_i64 — succeeds only on Integer. -/
def PdfObject.as_i64 : PdfObject → Option Int
  | .integer i => some i
  | _ => none

/-- lopdf Object::as_reference. -/
def PdfObject.asReference : PdfObject → Option ObjectId
  | .reference id => some id
  | _ => none

/-- lopdf's page-tree walk (Document::page_iter): depth-first,
left-to-right over Kids, yielding ids whose dictionary Type is Page and
descending through nodes whose Type is Pages; non-reference kids and
nodes of other types are skipped.  The fuel bounds the number of nodes
popped from the worklist; one unit per node suffices for tree-shaped
(acyclic, duplicate-free) page trees, which covers every document the
development evaluates. -/
def collectPagesAux (d : Document) : Nat → List ObjectId → List ObjectId
  | 0, _ => []
  | fuel + 1, worklist =>
    match worklist with
    | [] => []
    | id :: rest =>
      match d.getObject id with
      | some (.dictionary dict) =>
        match dictGet dict "Type" with
        | some (.name t) =>
          if t = "Page" then id :: collectPagesAux d fuel rest
          else if t = "Pages" then
            match dictGet dict "Kids" with
            | some (.array kids) =>
              collectPagesAux d fuel (kids.filterMap PdfObject.asReference ++ rest)
            | _ => collectPagesAux d fuel rest
          else collectPagesAux d fuel rest
        | _ => collectPagesAux d fuel rest
      | _ => collectPagesAux d fuel rest

/-- lopdf Document::get_pages: BTreeMap from 1-based page number to
page id, modelled as the list of page ids in traversal order (entry for
page n is element n-1).  Starts from trailer Root → catalog → Pages;
any missing link yields the empty map, as in lopdf. -/
def Document.get_pages (d : Document) : List ObjectId :=
  match dictGet d.trailer "Root" with
  | some (.reference rootId) =>
    match d.getObject rootId with
    | some (.dictionary cat) =>
      match dictGet cat "Pages" with
      | some (.reference pagesId) => collectPagesAux d (d.objects.length + 1) [pagesId]
      | _ => []
    | _ => []
  | _ => []

/-- BTreeMap<u32, ObjectId>::get on the get_pages map: the map's keys
are exactly 1..len, so page number n maps to list index n-1 and 0 (or
anything past the end) misses. -/
def pagesGet (pages : List ObjectId) (page_num : Nat) : Option ObjectId :=
  if page_num = 0 then none else pages.get? (page_num - 1)

/-- get_page_dimensions (main.rs lines 56-72).  The lookup casts
page_num as u32 (line 58), a usize → u32 truncation modelled as
mod 2^32.  Looks only at the page leaf's own dictionary: if it has a
MediaBox array of length ≥ 4, width and height are differences of
as_i64 components with unwrap_or defaults 595/842/0/0; every other
shape of page falls through to the fixed A4 default (595, 842).  The
source computes in f64 from i64 casts, which is exact at these
magnitudes, so Int is used. -/
def get_page_dimensions (doc : Document) (page_num : Nat) : Except String (Int × Int) :=
  match pagesGet doc.get_pages (page_num % 4294967296) with
  | none => .error "Page not found"
  | some page_id =>
    match doc.getObject page_id with
    | none => .error "object not found"
    | some page =>
      match page with
      | .dictionary dict =>
        match dictGet dict "MediaBox" with
        | some (.array media_box) =>
          if 4 ≤ media_box.length then
            .ok (((media_box.getD 2 .null).as_i64.getD 595)
                   - ((media_box.getD 0 .null).as_i64.getD 0),
                 ((media_box.getD 3 .null).as_i64.getD 842)
                   - ((media_box.getD 1 .null).as_i64.getD 0))
          else .ok (595, 842)
        | _ => .ok (595, 842)
      | _ => .ok (595, 842)

/-- The standard base64 alphabet used by base64::engine::general_purpose::STANDARD. -/
def base64Alphabet : String :=
  "ABCDEFGHIJKLMNOPQRSTUVWXYZabcdefghijklmnopqrstuvwxyz0123456789+/"

def base64Char (n : Nat) : Char :=
  base64Alphabet.toList.getD n 'A'

/-- Standard base64 with '=' padding over a byte list. -/
def base64Encode : List Nat → List Char
  | [] => []
  | [a] => [base64Char (a / 4), base64Char (a % 4 * 16), '=', '=']
  | [a, b] => [base64Char (a / 4), base64Char (a % 4 * 16 + b / 16),
               base64Char (b % 16 * 4), '=']
  | a :: b :: c :: rest =>
    base64Char (a / 4) :: base64Char (a % 4 * 16 + b / 16) ::
      base64Char (b % 16 * 4 + c / 64) :: base64Char (c % 64) :: base64Encode rest

/-- UTF-8 bytes of a string; the strings encoded here are pure ASCII,
for which UTF-8 is the code points themselves. -/
def stringBytes (s : String) : List Nat :=
  s.toList.map Char.toNat

/-- The SVG text built by format! in generate_thumbnail_placeholder
(main.rs lines 76-82), with the page number spliced in. -/
def svgContent (page_num : Nat) : String :=
  "<svg xmlns=\"http://www.w3.org/2000/svg\" width=\"100\" height=\"141\" viewBox=\"0 0 100 141\"><rect width=\"100\" height=\"141\" fill=\"#f0f0f0\" stroke=\"#cccccc\"/><text x=\"50\" y=\"70\" text-anchor=\"middle\" font-family=\"Arial\" font-size=\"24\" fill=\"#666666\">"
    ++ toString page_num ++ "</text></svg>"

/-- generate_thumbnail_placeholder (main.rs lines 74-84). -/
def generate_thumbnail_placeholder (page_num : Nat) : String :=
  "data:image/svg+xml;base64," ++ String.mk (base64Encode (stringBytes (svgContent page_num)))

/-- PdfPage (main.rs lines 9-16). -/
structure PdfPage where
  page_number : Nat
  width : Int
  height : Int
  rotation : Int
  thumbnail : String

/-- PdfInfo (main.rs lines 18-23). -/
structure PdfInfo where
  path : String
  page_count : Nat
  pages : List PdfPage

/-- The page-building loop of load_pdf (main.rs lines 31-47): for each
index i below the page count, page_number = i + 1, dimensions from
get_page_dimensions with error propagation, rotation hard-coded to 0,
thumbnail from the placeholder generator. -/
def loadPages (doc : Document) : Nat → Nat → Except String (List PdfPage)
  | _, 0 => .ok []
  | i, remaining + 1 =>
    match get_page_dimensions doc (i + 1) with
    | .error e => .error e
    | .ok wh =>
      match loadPages doc (i + 1) remaining with
      | .error e => .error e
      | .ok rest =>
        .ok ({ page_number := i + 1, width := wh.1, height := wh.2,
               rotation := 0,
               thumbnail := generate_thumbnail_placeholder (i + 1) } :: rest)

/-- load_pdf (main.rs lines 25-54) on an already-parsed document. -/
def load_pdf (path : String) (doc : Document) : Except String PdfInfo :=
  match loadPages doc 0 doc.get_pages.length with
  | .error e => .error e
  | .ok pages => .ok { path := path, page_count := doc.get_pages.length, pages := pages }

/-- The rotation step of save_pdf (main.rs lines 118-123): if the
rotations map has an entry for the page and it is nonzero, set Rotate
to that raw value; otherwise leave the cloned dictionary untouched. -/
def applyRotation (rotations : List (Nat × Int)) (page_num : Nat)
    (dict : List (String × PdfObject)) : List (String × PdfObject) :=
  match lookupAssoc rotations page_num with
  | some rotation => if rotation ≠ 0 then dictSet dict "Rotate" (.integer rotation) else dict
  | none => dict

/-- One iteration of save_pdf's page loop (main.rs lines 103-131):
skip deleted page numbers; look the page up under page_num as u32
(line 109, a usize → u32 truncation modelled as mod 2^32) and silently
skip page numbers whose truncation is absent from the get_pages map;
propagate get_object failure; skip non-dictionary pages; otherwise
clone the dictionary, apply the rotation step, and insert it into the
new document under a fresh id.  Note the deleted_pages test and the
rotations lookup use the untruncated usize value, only the page-map
lookup casts. -/
def savePage (doc : Document) (rotations : List (Nat × Int)) (deleted_pages : List Nat)
    (new_doc : Document) (page_num : Nat) : Except String Document :=
  if page_num ∈ deleted_pages then .ok new_doc
  else
    match pagesGet doc.get_pages (page_num % 4294967296) with
    | none => .ok new_doc
    | some page_id =>
      match doc.getObject page_id with
      | none => .error "object not found"
      | some page =>
        match page with
        | .dictionary dict =>
          .ok (new_doc.addObject (.dictionary (applyRotation rotations page_num dict)))
        | _ => .ok new_doc

/-- save_pdf's for-loop over page_order with error propagation. -/
def saveLoop (doc : Document) (rotations : List (Nat × Int)) (deleted_pages : List Nat) :
    Document → List Nat → Except String Document
  | new_doc, [] => .ok new_doc
  | new_doc, page_num :: rest =>
    match savePage doc rotations deleted_pages new_doc page_num with
    | .error e => .error e
    | .ok new_doc2 => saveLoop doc rotations deleted_pages new_doc2 rest

/-- save_pdf (main.rs lines 86-138) on an already-parsed source
document; the returned document is the one handed to Document::save.
Starts from Document::with_version("1.5") (empty store, empty trailer,
max_id 0), copies the Info trailer entry when present, then runs the
page loop.  Note that no catalog, Root entry, or Pages tree node is
ever created — the source's comment at lines 129-130 leaves the page
tree unbuilt. -/
def save_pdf (doc : Document) (page_order : List Nat) (rotations : List (Nat × Int))
    (deleted_pages : List Nat) : Except String Document :=
  let new_doc : Document := { version := "1.5", objects := [], trailer := [], max_id := 0 }
  let new_doc2 :=
    match dictGet doc.trailer "Info" with
    | some info => { new_doc with trailer := dictSet new_doc.trailer "Info" info }
    | none => new_doc
  saveLoop doc rotations deleted_pages new_doc2 page_order

/-- The merge loop body for one later document (main.rs lines 153-158):
for each page id of that document in page-number order, clone the page
object into the destination under a fresh id; get_object failures are
skipped.  Nothing links the copies into the destination's page tree. -/
def mergeFrom (doc : Document) (merged : Document) : Document :=
  doc.get_pages.foldl
    (fun m page_id =>
      match doc.getObject page_id with
      | some page => m.addObject page
      | none => m)
    merged

/-- merge_pdfs (main.rs lines 140-164) on already-parsed documents:
empty input is an error; otherwise the first document is the
destination and each later document's pages are copied in by
mergeFrom.  The returned document is the one handed to Document::save. -/
def merge_pdfs (docs : List Document) : Except String Document :=
  match docs with
  | [] => .error "No PDFs to merge"
  | first :: rest => .ok (rest.foldl (fun merged doc => mergeFrom doc merged) first)

/-- A dictionary object whose Type entry is the name Pages. -/
def isPagesNode : PdfObject → Bool
  | .dictionary dict =>
    match dictGet dict "Type" with
    | some (.name t) => t = "Pages"
    | _ => false
  | _ => false

/-- Whether any object in the store is a Pages internal node. -/
def hasPagesNode (d : Document) : Bool :=
  d.objects.any (fun entry => isPagesNode entry.2)

/- Concrete documents used to evaluate the engine. -/

/-- A single page leaf with its own US-Letter MediaBox. -/
def pageDict1 : List (String × PdfObject) :=
  [("Type", .name "Page"),
   ("MediaBox", .array [.integer 0, .integer 0, .integer 612, .integer 792])]

/-- A well-formed one-page document: catalog 1, Pages node 2, leaf 3. -/
def doc1 : Document :=
  { version := "1.5"
  , objects :=
      [ (⟨1, 0⟩, .dictionary [("Type", .name "Catalog"), ("Pages", .reference ⟨2, 0⟩)])
      , (⟨2, 0⟩, .dictionary [("Type", .name "Pages"),
          ("Kids", .array [.reference ⟨3, 0⟩]), ("Count", .integer 1)])
      , (⟨3, 0⟩, .dictionary pageDict1) ]
  , trailer := [("Root", .reference ⟨1, 0⟩)]
  , max_id := 3 }

/-- The document save_pdf produces from doc1 with the identity
instruction set: one orphan copy of the page dictionary, no trailer
Root, no catalog, no Pages node. -/
def saved1 : Document :=
  { version := "1.5"
  , objects := [(⟨1, 0⟩, .dictionary pageDict1)]
  , trailer := []
  , max_id := 1 }

/-- What load_pdf reports for saved1: zero pages. -/
def outInfo1 : PdfInfo :=
  { path := "roundtrip.pdf", page_count := 0, pages := [] }

/-- The sole page record load_pdf builds for doc1. -/
def page1Loaded : PdfPage :=
  { page_number := 1, width := 612, height := 792, rotation := 0
  , thumbnail := generate_thumbnail_placeholder 1 }

/-- What load_pdf reports for doc1 itself. -/
def info1 : PdfInfo :=
  { path := "sample.pdf", page_count := 1, pages := [page1Loaded] }

/-- The Rotate entry of the single page that save_pdf doc1 [1] with
rotation override r on page 1 writes to the output store. -/
def savedRotate (r : Int) : Option PdfObject :=
  match save_pdf doc1 [1] [(1, r)] [] with
  | .ok d =>
    match d.objects with
    | [(_, .dictionary dict)] => dictGet dict "Rotate"
    | _ => none
  | .error _ => none

/-- The empty output document save_pdf produces when every page_order
entry is skipped. -/
def emptySaved : Document :=
  { version := "1.5", objects := [], trailer := [], max_id := 0 }

/-- Page leaf declaring no MediaBox of its own. -/
def leafNoBox : List (String × PdfObject) :=
  [("Type", .name "Page")]

/-- Page leaf overriding MediaBox to [0,0,300,300]. -/
def leafOwnBox : List (String × PdfObject) :=
  [("Type", .name "Page"),
   ("MediaBox", .array [.integer 0, .integer 0, .integer 300, .integer 300])]

/-- Two-page document whose Pages internal node declares MediaBox
[0,0,612,792]; page 1 declares no MediaBox, page 2 overrides it. -/
def docInherit : Document :=
  { version := "1.5"
  , objects :=
      [ (⟨1, 0⟩, .dictionary [("Type", .name "Catalog"), ("Pages", .reference ⟨2, 0⟩)])
      , (⟨2, 0⟩, .dictionary [("Type", .name "Pages"),
          ("MediaBox", .array [.integer 0, .integer 0, .integer 612, .integer 792]),
          ("Kids", .array [.reference ⟨3, 0⟩, .reference ⟨4, 0⟩]), ("Count", .integer 2)])
      , (⟨3, 0⟩, .dictionary leafNoBox)
      , (⟨4, 0⟩, .dictionary leafOwnBox) ]
  , trailer := [("Root", .reference ⟨1, 0⟩)]
  , max_id := 4 }

/-- One-page document whose leaf MediaBox [100,0,50,80] has
urx < llx, i.e. a negative width extent. -/
def docNeg : Document :=
  { version := "1.5"
  , objects :=
      [ (⟨1, 0⟩, .dictionary [("Type", .name "Catalog"), ("Pages", .reference ⟨2, 0⟩)])
      , (⟨2, 0⟩, .dictionary [("Type", .name "Pages"),
          ("Kids", .array [.reference ⟨3, 0⟩]), ("Count", .integer 1)])
      , (⟨3, 0⟩, .dictionary [("Type", .name "Page"),
          ("MediaBox", .array [.integer 100, .integer 0, .integer 50, .integer 80])]) ]
  , trailer := [("Root", .reference ⟨1, 0⟩)]
  , max_id := 3 }

/-- One-page document whose leaf MediaBox is present but has four Null
components — invalid presence, not absence. -/
def docBad : Document :=
  { version := "1.5"
  , objects :=
      [ (⟨1, 0⟩, .dictionary [("Type", .name "Catalog"), ("Pages", .reference ⟨2, 0⟩)])
      , (⟨2, 0⟩, .dictionary [("Type", .name "Pages"),
          ("Kids", .array [.reference ⟨3, 0⟩]), ("Count", .integer 1)])
      , (⟨3, 0⟩, .dictionary [("Type", .name "Page"),
          ("MediaBox", .array [.null, .null, .null, .null])]) ]
  , trailer := [("Root", .reference ⟨1, 0⟩)]
  , max_id := 3 }

/-- Three-page document: catalog 1, Pages node 2, leaves 3-5. -/
def doc3 : Document :=
  { version := "1.5"
  , objects :=
      [ (⟨1, 0⟩, .dictionary [("Type", .name "Catalog"), ("Pages", .reference ⟨2, 0⟩)])
      , (⟨2, 0⟩, .dictionary [("Type", .name "Pages"),
          ("Kids", .array [.reference ⟨3, 0⟩, .reference ⟨4, 0⟩, .reference ⟨5, 0⟩]),
          ("Count", .integer 3)])
      , (⟨3, 0⟩, .dictionary [("Type", .name "Page")])
      , (⟨4, 0⟩, .dictionary [("Type", .name "Page")])
      , (⟨5, 0⟩, .dictionary [("Type", .name "Page")]) ]
  , trailer := [("Root", .reference ⟨1, 0⟩)]
  , max_id := 5 }

/-- Four-page document: catalog 1, Pages node 2, leaves 3-6. -/
def doc4 : Document :=
  { version := "1.5"
  , objects :=
      [ (⟨1, 0⟩, .dictionary [("Type", .name "Catalog"), ("Pages", .reference ⟨2, 0⟩)])
      , (⟨2, 0⟩, .dictionary [("Type", .name "Pages"),
          ("Kids", .array [.reference ⟨3, 0⟩, .reference ⟨4, 0⟩,
            .reference ⟨5, 0⟩, .reference ⟨6, 0⟩]),
          ("Count", .integer 4)])
      , (⟨3, 0⟩, .dictionary [("Type", .name "Page")])
      , (⟨4, 0⟩, .dictionary [("Type", .name "Page")])
      , (⟨5, 0⟩, .dictionary [("Type", .name "Page")])
      , (⟨6, 0⟩, .dictionary [("Type", .name "Page")]) ]
  , trailer := [("Root", .reference ⟨1, 0⟩)]
  , max_id := 6 }

/-- The document merge_pdfs produces from [doc3, doc4]. -/
def merged34 : Document :=
  mergeFrom doc4 doc3

/- Helper lemmas. -/

/-- Setting one key of a dictionary leaves every other key's lookup unchanged. -/
theorem dictGet_dictSet_ne (d : List (String × PdfObject)) (k k' : String) (v : PdfObject)
    (hne : k' ≠ k) : dictGet (dictSet d k v) k' = dictGet d k' := by
  induction d with
  | nil =>
    simp only [dictSet, dictGet]
    rw [if_neg (fun h => hne h.symm)]
  | cons hd tl ih =>
    obtain ⟨k0, v0⟩ := hd
    by_cases h0 : k0 = k
    · subst h0
      simp only [dictSet, if_pos rfl, dictGet]
      rw [if_neg (fun h => hne h.symm), if_neg (fun h => hne h.symm)]
    · simp only [dictSet, if_neg h0, dictGet]
      by_cases h1 : k0 = k'
      · rw [if_pos h1, if_pos h1]
      · rw [if_neg h1, if_neg h1]
        exact ih

/-- Every page record produced by load_pdf's page loop has rotation 0. -/
theorem loadPages_rotation_zero (doc : Document) :
    ∀ n i pages, loadPages doc i n = Except.ok pages → ∀ p ∈ pages, p.rotation = 0 := by
  intro n
  induction n with
  | zero =>
    intro i pages h p hp
    simp only [loadPages] at h
    injection h with h
    subst h
    cases hp
  | succ m ih =>
    intro i pages h p hp
    simp only [loadPages] at h
    cases hdim : get_page_dimensions doc (i + 1) with
    | error e => rw [hdim] at h; exact Except.noConfusion h
    | ok wh =>
      simp only [hdim] at h
      cases hrest : loadPages doc (i + 1) m with
      | error e => rw [hrest] at h; exact Except.noConfusion h
      | ok rest =>
        simp only [hrest] at h
        injection h with h
        subst h
        rcases List.mem_cons.mp hp with h1 | h1
        · subst h1; rfl
        · exact ih (i + 1) rest hrest p h1

/- Claim theorems. -/

/-- Claim C1: load, then save_pdf with an identity instruction set, then
load again was claimed to preserve page_count and per-page attributes.
The code violates this: save_pdf never creates a catalog, trailer Root,
or Pages node, so reloading its output of a one-page document reports
zero pages. -/
theorem identity_roundtrip_loses_all_pages :
    doc1.get_pages.length = 1 ∧
    save_pdf doc1 [1] [] [] = .ok saved1 ∧
    load_pdf "roundtrip.pdf" saved1 = .ok outInfo1 ∧
    outInfo1.page_count = 0 := ⟨rfl, rfl, rfl, rfl⟩

/-- Claim C2: every successful save_pdf output was claimed to contain a
valid Pages internal node referencing all leaves.  The code violates
this (the spec itself brands the omission a correctness bug): the
output store of saving doc1 holds exactly one object, the copied page
leaf, and no object whose Type is Pages. -/
theorem save_pdf_builds_no_pages_node :
    save_pdf doc1 [1] [] [] = .ok saved1 ∧
    hasPagesNode saved1 = false ∧
    saved1.objects.length = 1 := ⟨rfl, rfl, rfl⟩

/-- Claim C3 counterexample: a rotation override of -90 was claimed to
be stored as the normalized 270; the code stores the raw -90, so the
stored Rotate entry is not the claimed normalized value. -/
theorem rotation_override_not_normalized :
    savedRotate (-90) = some (PdfObject.integer (-90)) ∧
    savedRotate (-90) ≠ some (PdfObject.integer 270) := by
  constructor
  · rfl
  · intro h
    rw [show savedRotate (-90) = some (PdfObject.integer (-90)) from rfl] at h
    injection h with h1
    injection h1 with h2
    exact absurd h2 (by decide)

/-- Claim C3 as amended: save_pdf stores a nonzero rotation override
verbatim as the page's Rotate entry — 450 is stored as 450, -90 as
-90, and 90 as 90; no normalization into 0..359 or to the set
0/90/180/270 takes place. -/
theorem rotation_override_stored_verbatim :
    savedRotate 450 = some (PdfObject.integer 450) ∧
    savedRotate (-90) = some (PdfObject.integer (-90)) ∧
    savedRotate 90 = some (PdfObject.integer 90) := ⟨rfl, rfl, rfl⟩

/-- Claim C4: merging a 3-page and a 4-page document was claimed to
give 7 pages in concatenated order.  The code violates this: the
copied pages of the second document are never linked into the first
document's page tree, so the merge result still enumerates only the
first document's 3 pages (the freshly allocated ids do keep the object
store free of duplicate ObjectIds). -/
theorem merge_pdfs_drops_second_document_pages :
    doc3.get_pages.length = 3 ∧
    doc4.get_pages.length = 4 ∧
    merge_pdfs [doc3, doc4] = .ok merged34 ∧
    merged34.get_pages.length = 3 ∧
    (merged34.objects.map Prod.fst).Nodup := ⟨rfl, rfl, rfl, rfl, by decide⟩

/-- Claim C5 counterexample: a leaf with no MediaBox under a Pages
ancestor declaring MediaBox [0,0,612,792] was claimed to resolve to
612 by 792; the code resolves it to the fixed default 595 by 842
instead, performing no ancestor walk. -/
theorem media_box_not_inherited :
    get_page_dimensions docInherit 1 = .ok (595, 842) ∧
    ((595 : Int), (842 : Int)) ≠ ((612 : Int), (792 : Int)) := ⟨rfl, by decide⟩

/-- Claim C5 as amended: effective MediaBox resolution looks only at
the leaf's own dictionary — a leaf declaring MediaBox [0,0,300,300]
resolves to 300 by 300, and a leaf declaring none resolves to the
fixed default 595 by 842 regardless of any ancestor's MediaBox. -/
theorem media_box_leaf_only_with_default :
    get_page_dimensions docInherit 1 = .ok (595, 842) ∧
    get_page_dimensions docInherit 2 = .ok (300, 300) := ⟨rfl, rfl⟩

/-- Claim C6 counterexample: a resolved MediaBox with urx < llx was
claimed to be reported as an error; the code returns the negative
width -50 as an ordinary success value. -/
theorem negative_extent_returned_ok :
    get_page_dimensions docNeg 1 = .ok (-50, 80) ∧ (-50 : Int) < 0 := ⟨rfl, by decide⟩

/-- Claim C6 as amended: get_page_dimensions never reports an error
for a present-but-invalid MediaBox — a negative extent is returned
as-is, and non-integer components are silently replaced by the same
per-component defaults used for absence (595/842/0/0), so defaulting
is applied to invalid presence as well. -/
theorem invalid_media_box_silently_defaulted :
    get_page_dimensions docNeg 1 = .ok (-50, 80) ∧
    get_page_dimensions docBad 1 = .ok (595, 842) := ⟨rfl, rfl⟩

/-- Claim C7 counterexample: a page_order entry naming a nonexistent
page (page 2 of a one-page document) was claimed to make save_pdf fail
with an error; the code succeeds, silently skipping the entry and
producing an output store with no pages at all. -/
theorem unknown_page_number_no_error :
    pagesGet doc1.get_pages (2 % 4294967296) = none ∧
    save_pdf doc1 [2] [] [] = .ok emptySaved := ⟨rfl, rfl⟩

/-- Claim C7 as amended: a page_order entry whose usize → u32
truncation (value mod 2^32) is absent from the source's page-number
map is silently skipped — the per-entry step of save_pdf returns the
accumulated output document unchanged rather than an error; save_pdf
has no unknown-page error path.  (An entry of 2^32 or more whose
truncation does name an existing page aliases that page and copies
it, so the hypothesis is stated on the truncated value.) -/
theorem savePage_unknown_skipped (doc : Document) (rotations : List (Nat × Int))
    (deleted : List Nat) (nd : Document) (n : Nat)
    (h : pagesGet doc.get_pages (n % 4294967296) = none) :
    savePage doc rotations deleted nd n = Except.ok nd := by
  unfold savePage
  by_cases hd : n ∈ deleted
  · simp [hd]
  · simp [hd, h]

/-- Witness for savePage_unknown_skipped at page number 5 of doc1. -/
theorem savePage_unknown_skipped_witness :
    savePage doc1 [] [] emptySaved 5 = Except.ok emptySaved :=
  savePage_unknown_skipped doc1 [] [] emptySaved 5 rfl

/-- Claim C8: merge_pdfs on an empty list of inputs fails with an
error (before any output document is produced). -/
theorem merge_pdfs_empty_input_error :
    merge_pdfs ([] : List Document) = .error "No PDFs to merge" := rfl

/-- Claim C9: every page record in a successful load_pdf result has
rotation 0, regardless of the document's contents — the code
hard-codes the field. -/
theorem load_pdf_rotation_always_zero (path : String) (doc : Document) (info : PdfInfo)
    (h : load_pdf path doc = Except.ok info) : ∀ p ∈ info.pages, p.rotation = 0 := by
  intro p hp
  simp only [load_pdf] at h
  cases hl : loadPages doc 0 doc.get_pages.length with
  | error e => rw [hl] at h; exact Except.noConfusion h
  | ok pages =>
    simp only [hl] at h
    injection h with h
    subst h
    exact loadPages_rotation_zero doc _ 0 pages hl p hp

/-- Witness for load_pdf_rotation_always_zero on doc1. -/
theorem load_pdf_rotation_always_zero_witness :
    load_pdf "sample.pdf" doc1 = Except.ok info1 ∧ page1Loaded.rotation = 0 :=
  ⟨rfl, load_pdf_rotation_always_zero "sample.pdf" doc1 info1 rfl page1Loaded
    (List.mem_singleton.mpr rfl)⟩

/-- Claim C10: in save_pdf's per-page rotation step, a rotation
override of 0 leaves the cloned page dictionary exactly as in the
source (an existing Rotate value is neither cleared nor overwritten),
and in every case the lookup of any key other than Rotate is
unchanged. -/
theorem zero_rotation_preserves_dict (rotations : List (Nat × Int)) (n : Nat)
    (dict : List (String × PdfObject)) :
    (lookupAssoc rotations n = some 0 → applyRotation rotations n dict = dict) ∧
    (∀ key, key ≠ "Rotate" →
      dictGet (applyRotation rotations n dict) key = dictGet dict key) := by
  constructor
  · intro h
    simp [applyRotation, h]
  · intro key hk
    unfold applyRotation
    cases lookupAssoc rotations n with
    | none => rfl
    | some r =>
      by_cases hr : r = 0
      · simp [hr]
      · simp only [ne_eq, hr, not_false_eq_true, if_true]
        exact dictGet_dictSet_ne dict "Rotate" key _ hk

/-- Witness for zero_rotation_preserves_dict on pageDict1. -/
theorem zero_rotation_preserves_dict_witness :
    applyRotation [(1, 0)] 1 pageDict1 = pageDict1 ∧
    dictGet (applyRotation [(1, 450)] 1 pageDict1) "MediaBox" = dictGet pageDict1 "MediaBox" :=
  ⟨(zero_rotation_preserves_dict [(1, 0)] 1 pageDict1).1 rfl,
   (zero_rotation_preserves_dict [(1, 450)] 1 pageDict1).2 "MediaBox" (by decide)⟩
